import Mathlib

/-!
Verification of the jira-task-manager task layer.

The repository is a thin façade over a remote issue tracker.  Every
operation is a straight-line Python method that issues HTTP requests and
combines the responses.  We embed each operation as a pure Lean function
parameterised by a `Backend` (the responses the remote server would give)
and make the side effects observable as an explicit list of `Request`
values issued by the operation.  Machine-level details that no claim
depends on (HTTP headers, authentication handshakes) are abstracted; the
JQL query strings, the `maxResults` caps, the response-shape handling and
the Python truthiness tests are embedded faithfully.

Python dynamic typing matters for the description extractor, so JSON
values are modelled by `Json` and the dictionary/list primitives
(`get`, `in`, subscript, iteration, `str.join`) are given their Python
semantics including the runtime errors they raise on ill-typed values.
-/

namespace JiraTM

/-- JSON values as Python would hold them after parsing a response body.
`num` uses `Int`; no claim depends on non-integral numbers. -/
inductive Json where
  | null : Json
  | bool (b : Bool) : Json
  | num (n : Int) : Json
  | str (s : String) : Json
  | arr (elems : List Json) : Json
  | obj (fields : List (String × Json)) : Json

/-- Python truthiness: `None`, `False`, `0`, `""`, `[]` and `\x7b\x7d` are falsy. -/
def Json.falsy : Json → Bool
  | .null => true
  | .bool b => !b
  | .num n => n == 0
  | .str s => s == ""
  | .arr xs => xs.isEmpty
  | .obj fs => fs.isEmpty

/-- Python `v == k` for a string literal `k`: true only when `v` is the
equal string (Python equality across types is `False`, never an error). -/
def Json.eqStr : Json → String → Bool
  | .str s, k => s == k
  | _, _ => false

/-- Python runtime errors the embedded code can raise. -/
inductive PyErr where
  | attributeError : PyErr
  | typeError : PyErr
  | keyError : PyErr
  deriving DecidableEq

/-- Substring test, used for Python `k in s` on strings: `s.splitOn k`
has more than one part exactly when `k` occurs in `s` (any `k` occurs in
any `s` when `k` is empty). -/
def strContains (s k : String) : Bool :=
  k == "" || decide (1 < (s.splitOn k).length)

/-- Python `k in v` for a string `k`: key membership on dicts, element
membership on lists, substring on strings, `TypeError` otherwise. -/
def pyIn (v : Json) (k : String) : Except PyErr Bool :=
  match v with
  | .obj fs => .ok (fs.any (fun p => p.1 == k))
  | .arr xs => .ok (xs.any (fun x => x.eqStr k))
  | .str s => .ok (strContains s k)
  | _ => .error .typeError

/-- Python `v[k]` for a string key `k`: dict lookup (raising `KeyError`
when absent), `TypeError` on any non-dict. -/
def pySubscript (v : Json) (k : String) : Except PyErr Json :=
  match v with
  | .obj fs =>
    match fs.find? (fun p => p.1 == k) with
    | some p => .ok p.2
    | none => .error .keyError
  | _ => .error .typeError

/-- Python `v.get(k, d)`: a dict method, so any non-dict raises
`AttributeError`. -/
def pyGet (v : Json) (k : String) (d : Json) : Except PyErr Json :=
  match v with
  | .obj fs =>
    match fs.find? (fun p => p.1 == k) with
    | some p => .ok p.2
    | none => .ok d
  | _ => .error .attributeError

/-- Python `for x in v`: lists yield elements, strings yield one-character
strings, dicts yield their keys, anything else raises `TypeError`. -/
def pyIter (v : Json) : Except PyErr (List Json) :=
  match v with
  | .arr xs => .ok xs
  | .str s => .ok (s.toList.map (fun ch => .str (String.mk [ch])))
  | .obj fs => .ok (fs.map (fun p => .str p.1))
  | _ => .error .typeError

/-- Python `" ".join(parts)`: `TypeError` when a part is not a string. -/
def pyJoinSpace (parts : List Json) : Except PyErr String :=
  if parts.all (fun p => match p with | .str _ => true | _ => false) then
    .ok (String.intercalate " " (parts.map (fun p => match p with | .str s => s | _ => "")))
  else
    .error .typeError

/-- Inner loop of `_get_description_text`: over the nodes of one
paragraph block, collect `text_node.get("text", "")` for every node
whose `get("type")` equals `"text"`. -/
def textsOfParagraph : List Json → Except PyErr (List Json)
  | [] => .ok []
  | node :: rest =>
    match pyGet node "type" .null with
    | .error e => .error e
    | .ok t =>
      if t.eqStr "text" then
        match pyGet node "text" (.str "") with
        | .error e => .error e
        | .ok tx =>
          match textsOfParagraph rest with
          | .error e => .error e
          | .ok more => .ok (tx :: more)
      else
        textsOfParagraph rest

/-- Outer loop of `_get_description_text`: over the content blocks,
descend into every block whose `get("type")` equals `"paragraph"` and
that has a `"content"` entry (Python short-circuit `and`). -/
def textsOfBlocks : List Json → Except PyErr (List Json)
  | [] => .ok []
  | cb :: rest =>
    match pyGet cb "type" .null with
    | .error e => .error e
    | .ok t =>
      if t.eqStr "paragraph" then
        match pyIn cb "content" with
        | .error e => .error e
        | .ok has =>
          if has then
            match pySubscript cb "content" with
            | .error e => .error e
            | .ok inner =>
              match pyIter inner with
              | .error e => .error e
              | .ok innerNodes =>
                match textsOfParagraph innerNodes with
                | .error e => .error e
                | .ok ts =>
                  match textsOfBlocks rest with
                  | .error e => .error e
                  | .ok more => .ok (ts ++ more)
          else
            textsOfBlocks rest
      else
        textsOfBlocks rest

/-- `_get_description_text` (identical in `core_tasks.py`,
`task_querying.py` and `jira_task_manager.py`), applied to the value of
`issue["fields"].get("description")`: return `""` when the description is
missing or falsy, otherwise walk `description["content"]` (when the key
is present) and space-join the collected text parts. -/
def getDescriptionTextE (description : Json) : Except PyErr String :=
  if description.falsy then .ok ""
  else
    match pyIn description "content" with
    | .error e => .error e
    | .ok has =>
      if has then
        match pySubscript description "content" with
        | .error e => .error e
        | .ok contentVal =>
          match pyIter contentVal with
          | .error e => .error e
          | .ok blocks =>
            match textsOfBlocks blocks with
            | .error e => .error e
            | .ok parts => pyJoinSpace parts
      else
        pyJoinSpace []

/-- `STATUS_TODO` from `jira_task_manager.py`. -/
def STATUS_TODO : String := "To Do"

/-- `STATUS_IN_PROGRESS` from `jira_task_manager.py`. -/
def STATUS_IN_PROGRESS : String := "In Progress"

/-- `STATUS_DONE` from `jira_task_manager.py`. -/
def STATUS_DONE : String := "Done"

/-- `ISSUE_TYPE_TASK` from `jira_task_manager.py`. -/
def ISSUE_TYPE_TASK : String := "Task"

/-- `ISSUE_TYPE_SUBTASK` from `jira_task_manager.py`. -/
def ISSUE_TYPE_SUBTASK : String := "Sub-task"

/-- `normalize_status` from `utils.py` (duplicated as
`_normalize_status` in `task_querying.py` and `jira_task_manager.py`). -/
def normalizeStatus (jiraStatus : String) : String :=
  if jiraStatus = STATUS_DONE then "done"
  else if jiraStatus = STATUS_IN_PROGRESS then "wip"
  else "todo"

/-- One entry of a `/transitions` response: its `id` and its target
status name `transition["to"]["name"]`. -/
structure Transition where
  id : String
  toName : String
  deriving DecidableEq

/-- The fields of an issue the operations read: `issue["key"]`,
`issue["fields"]["summary"]`, `issue["fields"]["status"]["name"]` and
`issue["fields"].get("description")` (`Json.null` when absent). -/
structure Issue where
  key : String
  summary : String
  statusName : String
  description : Json

/-- The attribute state a `JiraConnection` / `JiraTaskManager` object
holds after `__init__`: `server_url`, the two components of `auth`,
`project_key` and `base_url`.  The source assigns these four attributes
in `__init__` and nothing else, so operations thread this record
through unchanged. -/
structure Conn where
  serverUrl : String
  authUser : String
  authToken : String
  projectKey : String
  baseUrl : String
  deriving DecidableEq

/-- `__init__`: store the configuration and derive
`base_url = server_url + "/rest/api/3"`. -/
def connInit (serverUrl user token projectKey : String) : Conn :=
  { serverUrl := serverUrl, authUser := user, authToken := token,
    projectKey := projectKey, baseUrl := serverUrl ++ "/rest/api/3" }

/-- The HTTP requests an operation issues, with the data each carries.
`createIssue` abstracts the POST `/issue` body to the fields the code
fills (project, optional parent, issue type, summary, optional
description text inside the single-paragraph document it builds);
`updateDescription` abstracts the PUT body to the text placed in the
single-paragraph document. -/
inductive Request where
  | search (jql : String) (maxResults : Nat)
  | getTransitions (issueKey : String)
  | doTransition (issueKey : String) (transitionId : String)
  | createIssue (projectKey : String) (parentKey : Option String)
      (issuetype : String) (summary : String) (descriptionText : Option String)
  | updateDescription (issueKey : String) (text : String)
  | deleteIssue (issueKey : String) (deleteSubtasks : Bool)
  deriving DecidableEq

/-- The remote server, as the deterministic responses it gives:
`searchResult jql maxResults` is the issue list of a POST `/search`,
`transitionsOf key` the transition list of GET `/issue/key/transitions`,
`createResult parent summary` the key of a created issue (`none` models
a 404, which `_make_request` turns into `None`). -/
structure Backend where
  searchResult : String → Nat → List Issue
  transitionsOf : String → List Transition
  createResult : Option String → String → Option String

/-- `TaskStatusManager._find_transition_id` (`status_management.py`),
as a function of the fetched transitions list. -/
def statusMgrFindTransitionId : List Transition → String → Option String
  | [], _ => none
  | t :: ts, targetStatus =>
    if t.toName = targetStatus then some t.id
    else statusMgrFindTransitionId ts targetStatus

/-- `ChecklistManager._find_transition_id` (`checklist_management.py`),
as a function of the fetched transitions list. -/
def checklistMgrFindTransitionId : List Transition → String → Option String
  | [], _ => none
  | t :: ts, targetStatus =>
    if t.toName = targetStatus then some t.id
    else checklistMgrFindTransitionId ts targetStatus

/-- `JiraTaskManager._find_transition_id` (`jira_task_manager.py`),
as a function of the fetched transitions list. -/
def taskMgrFindTransitionId : List Transition → String → Option String
  | [], _ => none
  | t :: ts, targetStatus =>
    if t.toName = targetStatus then some t.id
    else taskMgrFindTransitionId ts targetStatus

/-- `_find_transition_id` composed with `_get_transitions`: fetch the
transitions of the issue and scan them for the target status. -/
def findTransitionId (B : Backend) (issueKey targetStatus : String) : Option String :=
  statusMgrFindTransitionId (B.transitionsOf issueKey) targetStatus

/-- The title-lookup query
`f\x27project = \x7bproject_key\x7d AND summary ~ "\x7btitle\x7d"\x27`. -/
def titleJql (projectKey title : String) : String :=
  "project = " ++ projectKey ++ " AND summary ~ \x22" ++ title ++ "\x22"

/-- The subtask lookup query
`f\x27parent = \x7bparent_key\x7d AND summary ~ "\x7bname\x7d"\x27`. -/
def parentItemJql (parentKey itemName : String) : String :=
  "parent = " ++ parentKey ++ " AND summary ~ \x22" ++ itemName ++ "\x22"

/-- Errors the operations signal by raising, plus Python runtime errors
propagating out of them. -/
inductive JErr where
  | taskNotFound (projectName title : String)
  | checklistNotFound (checklistName title : String)
  | checklistItemNotFound (title : String)
  | pyError (e : PyErr)
  deriving DecidableEq

/-- The observable outcome of one method call: its Python return value
or raised exception, the HTTP requests it issued in order, and the
attribute state of the object afterwards. -/
structure OpOut (α : Type) where
  result : Except JErr α
  trace : List Request
  conn : Conn

/-- `TaskStatusManager._set_task_status`: title search capped at one
result, `TaskNotFoundError` on an empty result, transition lookup, and
— only when the found transition id is truthy — one transition POST. -/
def setTaskStatusRun (c : Conn) (B : Backend) (projectName title targetStatus : String) :
    Except JErr (Issue × String) × List Request :=
  let jql := titleJql c.projectKey title
  match B.searchResult jql 1 with
  | [] => (.error (.taskNotFound projectName title), [.search jql 1])
  | issue :: _ =>
    match statusMgrFindTransitionId (B.transitionsOf issue.key) targetStatus with
    | none =>
      (.ok (issue, "Cannot transition task \x27" ++ title ++ "\x27 to " ++ targetStatus
          ++ " (transition not available)"),
       [.search jql 1, .getTransitions issue.key])
    | some tid =>
      if tid = "" then
        (.ok (issue, "Cannot transition task \x27" ++ title ++ "\x27 to " ++ targetStatus
            ++ " (transition not available)"),
         [.search jql 1, .getTransitions issue.key])
      else
        (.ok (issue, "Task \x27" ++ title ++ "\x27 status set to " ++ targetStatus ++ "."),
         [.search jql 1, .getTransitions issue.key, .doTransition issue.key tid])

/-- `TaskStatusManager.set_task_status` delegates to `_set_task_status`. -/
def setTaskStatus (c : Conn) (B : Backend) (projectName title targetStatus : String) :
    OpOut (Issue × String) :=
  { result := (setTaskStatusRun c B projectName title targetStatus).1,
    trace := (setTaskStatusRun c B projectName title targetStatus).2,
    conn := c }

/-- `TaskStatusManager.mark_as_in_progress` delegates to
`_set_task_status` with `STATUS_IN_PROGRESS`. -/
def markAsInProgressRun (c : Conn) (B : Backend) (projectName title : String) :
    Except JErr (Issue × String) × List Request :=
  setTaskStatusRun c B projectName title STATUS_IN_PROGRESS

/-- `mark_as_in_progress` as a method call. -/
def markAsInProgress (c : Conn) (B : Backend) (projectName title : String) :
    OpOut (Issue × String) :=
  { result := (markAsInProgressRun c B projectName title).1,
    trace := (markAsInProgressRun c B projectName title).2,
    conn := c }

/-- `TaskStatusManager.mark_as_completed` delegates to
`_set_task_status` with `STATUS_DONE`. -/
def markAsCompletedRun (c : Conn) (B : Backend) (projectName title : String) :
    Except JErr (Issue × String) × List Request :=
  setTaskStatusRun c B projectName title STATUS_DONE

/-- `mark_as_completed` as a method call. -/
def markAsCompleted (c : Conn) (B : Backend) (projectName title : String) :
    OpOut (Issue × String) :=
  { result := (markAsCompletedRun c B projectName title).1,
    trace := (markAsCompletedRun c B projectName title).2,
    conn := c }

/-- `TaskStatusManager.get_task_status`: title search capped at one
result, then report the found issue\x27s status name. -/
def getTaskStatusRun (c : Conn) (B : Backend) (projectName title : String) :
    Except JErr (Issue × String) × List Request :=
  let jql := titleJql c.projectKey title
  match B.searchResult jql 1 with
  | [] => (.error (.taskNotFound projectName title), [.search jql 1])
  | issue :: _ =>
    (.ok (issue, "Task \x27" ++ title ++ "\x27 status: " ++ issue.statusName),
     [.search jql 1])

/-- `get_task_status` as a method call. -/
def getTaskStatus (c : Conn) (B : Backend) (projectName title : String) :
    OpOut (Issue × String) :=
  { result := (getTaskStatusRun c B projectName title).1,
    trace := (getTaskStatusRun c B projectName title).2,
    conn := c }

/-- `CoreTaskOperations.update_task_description`: find the issue, read
its current description, prepend/append around a timestamp marker
(`now` stands for `datetime.datetime.now().strftime(...)`), and PUT the
new single-paragraph document. -/
def updateTaskDescriptionRun (c : Conn) (B : Backend)
    (now projectName title description : String) :
    Except JErr (Issue × String) × List Request :=
  let jql := titleJql c.projectKey title
  match B.searchResult jql 1 with
  | [] => (.error (.taskNotFound projectName title), [.search jql 1])
  | issue :: _ =>
    match getDescriptionTextE issue.description with
    | .error e => (.error (.pyError e), [.search jql 1])
    | .ok current =>
      let updated :=
        if current = "" then
          "--- Created on " ++ now ++ " ---\n" ++ description
        else
          current ++ "\n\n--- Updated on " ++ now ++ " ---\n" ++ description
      (.ok (issue, "Description updated for task \x27" ++ title ++ "\x27 in project \x27"
          ++ projectName ++ "\x27."),
       [.search jql 1, .updateDescription issue.key updated])

/-- `update_task_description` as a method call. -/
def updateTaskDescription (c : Conn) (B : Backend)
    (now projectName title description : String) :
    OpOut (Issue × String) :=
  { result := (updateTaskDescriptionRun c B now projectName title description).1,
    trace := (updateTaskDescriptionRun c B now projectName title description).2,
    conn := c }

/-- The subtask-creation loop of `update_task_with_checklist`: one POST
`/issue` per checklist item, collecting the keys of the non-404
responses. -/
def createSubtasks (c : Conn) (B : Backend) (parentKey : String) :
    List String → List String × List Request
  | [] => ([], [])
  | item :: rest =>
    let req := Request.createIssue c.projectKey (some parentKey) ISSUE_TYPE_SUBTASK item none
    let next := createSubtasks c B parentKey rest
    match B.createResult (some parentKey) item with
    | some k => (k :: next.1, req :: next.2)
    | none => (next.1, req :: next.2)

/-- `ChecklistManager.update_task_with_checklist`: find the parent by
title, then create one subtask per checklist item and report how many
creations returned a key. -/
def updateTaskWithChecklistRun (c : Conn) (B : Backend)
    (projectName title : String) (checklistItems : List String) :
    Except JErr (Issue × String) × List Request :=
  let jql := titleJql c.projectKey title
  match B.searchResult jql 1 with
  | [] => (.error (.taskNotFound projectName title), [.search jql 1])
  | parentIssue :: _ =>
    let created := createSubtasks c B parentIssue.key checklistItems
    (.ok (parentIssue, "Created " ++ Nat.repr created.1.length
        ++ " checklist items as subtasks for task \x27" ++ title ++ "\x27 in project \x27"
        ++ projectName ++ "\x27."),
     Request.search jql 1 :: created.2)

/-- `update_task_with_checklist` as a method call. -/
def updateTaskWithChecklist (c : Conn) (B : Backend)
    (projectName title : String) (checklistItems : List String) :
    OpOut (Issue × String) :=
  { result := (updateTaskWithChecklistRun c B projectName title checklistItems).1,
    trace := (updateTaskWithChecklistRun c B projectName title checklistItems).2,
    conn := c }

/-- `ChecklistManager.complete_checklist_item`: find the parent by
title, find the subtask by name (both searches capped at one result),
resolve the `Done` transition and — only when the found transition id is
truthy — apply it. -/
def completeChecklistItemRun (c : Conn) (B : Backend)
    (projectName title checklistItemName : String) :
    Except JErr (Issue × String) × List Request :=
  let jql1 := titleJql c.projectKey title
  match B.searchResult jql1 1 with
  | [] => (.error (.taskNotFound projectName title), [.search jql1 1])
  | parentIssue :: _ =>
    let jql2 := parentItemJql parentIssue.key checklistItemName
    match B.searchResult jql2 1 with
    | [] =>
      (.error (.checklistNotFound checklistItemName title),
       [.search jql1 1, .search jql2 1])
    | subtask :: _ =>
      match checklistMgrFindTransitionId (B.transitionsOf subtask.key) STATUS_DONE with
      | none =>
        (.ok (subtask, "Cannot complete checklist item \x27" ++ checklistItemName
            ++ "\x27 (transition not available)"),
         [.search jql1 1, .search jql2 1, .getTransitions subtask.key])
      | some tid =>
        if tid = "" then
          (.ok (subtask, "Cannot complete checklist item \x27" ++ checklistItemName
              ++ "\x27 (transition not available)"),
           [.search jql1 1, .search jql2 1, .getTransitions subtask.key])
        else
          (.ok (subtask, "Checklist item \x27" ++ checklistItemName ++ "\x27 in task \x27"
              ++ title ++ "\x27 in project \x27" ++ projectName ++ "\x27 completed."),
           [.search jql1 1, .search jql2 1, .getTransitions subtask.key,
            .doTransition subtask.key tid])

/-- `complete_checklist_item` as a method call. -/
def completeChecklistItem (c : Conn) (B : Backend)
    (projectName title checklistItemName : String) :
    OpOut (Issue × String) :=
  { result := (completeChecklistItemRun c B projectName title checklistItemName).1,
    trace := (completeChecklistItemRun c B projectName title checklistItemName).2,
    conn := c }

/-- The open-subtask query of `get_next_unchecked_checklist_item`. -/
def nextUncheckedJql (parentKey : String) : String :=
  "parent = " ++ parentKey ++ " AND status != \x22" ++ STATUS_DONE
    ++ "\x22 ORDER BY created ASC"

/-- `ChecklistManager.get_next_unchecked_checklist_item`: find the
parent by title, then the first not-Done subtask (both searches capped
at one result). -/
def getNextUncheckedChecklistItemRun (c : Conn) (B : Backend)
    (projectName title : String) :
    Except JErr (Issue × String) × List Request :=
  let jql1 := titleJql c.projectKey title
  match B.searchResult jql1 1 with
  | [] => (.error (.taskNotFound projectName title), [.search jql1 1])
  | parentIssue :: _ =>
    let jql2 := nextUncheckedJql parentIssue.key
    match B.searchResult jql2 1 with
    | [] =>
      (.error (.checklistItemNotFound title), [.search jql1 1, .search jql2 1])
    | subtask :: _ =>
      (.ok (subtask, "Next unchecked checklist item for task \x27" ++ title ++ "\x27: "
          ++ subtask.summary),
       [.search jql1 1, .search jql2 1])

/-- `get_next_unchecked_checklist_item` as a method call. -/
def getNextUncheckedChecklistItem (c : Conn) (B : Backend)
    (projectName title : String) : OpOut (Issue × String) :=
  { result := (getNextUncheckedChecklistItemRun c B projectName title).1,
    trace := (getNextUncheckedChecklistItemRun c B projectName title).2,
    conn := c }

/-- The task dictionary `get_tasks` builds per issue. -/
structure TaskDict where
  name : String
  description : String
  status : String
  id : String
  deriving DecidableEq

/-- The JQL `get_tasks` builds from its filter. -/
def statusFilterJql (projectKey filterType : String) : String :=
  let baseJql := "project = " ++ projectKey
  if filterType = "wip" then
    baseJql ++ " AND status = \x22" ++ STATUS_IN_PROGRESS ++ "\x22"
  else if filterType = "done" then
    baseJql ++ " AND status = \x22" ++ STATUS_DONE ++ "\x22"
  else
    baseJql

/-- The conversion loop of `get_tasks`: one dictionary per issue in
order; a description-extraction error aborts the whole call, as in
Python. -/
def buildTaskDicts : List Issue → Except PyErr (List TaskDict)
  | [] => .ok []
  | issue :: rest =>
    match getDescriptionTextE issue.description with
    | .error e => .error e
    | .ok d =>
      match buildTaskDicts rest with
      | .error e => .error e
      | .ok ts =>
        .ok ({ name := issue.summary, description := d,
               status := normalizeStatus issue.statusName, id := issue.key } :: ts)

/-- `TaskQueryManager._generate_result_message`: the two literal message
dictionaries with their `.get(filter_type, default)` fallbacks. -/
def generateResultMessage (filteredTasks : List TaskDict)
    (filterType projectName : String) : String :=
  if filteredTasks.isEmpty then
    if filterType = "all" then
      "No tasks found in project \x27" ++ projectName ++ "\x27."
    else if filterType = "wip" then
      "No work in progress tasks found in project \x27" ++ projectName ++ "\x27."
    else if filterType = "done" then
      "No completed tasks found in project \x27" ++ projectName ++ "\x27."
    else
      "No tasks found with filter \x27" ++ filterType ++ "\x27 in project \x27"
        ++ projectName ++ "\x27."
  else
    let n := Nat.repr filteredTasks.length
    if filterType = "all" then
      "Found " ++ n ++ " task(s) in project \x27" ++ projectName ++ "\x27."
    else if filterType = "wip" then
      "Found " ++ n ++ " work in progress task(s) in project \x27" ++ projectName ++ "\x27."
    else if filterType = "done" then
      "Found " ++ n ++ " completed task(s) in project \x27" ++ projectName ++ "\x27."
    else
      "Found " ++ n ++ " task(s) with filter \x27" ++ filterType ++ "\x27 in project \x27"
        ++ projectName ++ "\x27"

/-- `TaskQueryManager.get_tasks`: filter-dependent JQL, default search
cap of 50, one task dictionary per returned issue, and the result
message. -/
def getTasksRun (c : Conn) (B : Backend) (projectName filterType : String) :
    Except JErr (List TaskDict × String) × List Request :=
  let jql := statusFilterJql c.projectKey filterType
  let issues := B.searchResult jql 50
  match buildTaskDicts issues with
  | .error e => (.error (.pyError e), [.search jql 50])
  | .ok tasks =>
    (.ok (tasks, generateResultMessage tasks filterType projectName), [.search jql 50])

/-- `get_tasks` as a method call. -/
def getTasks (c : Conn) (B : Backend) (projectName filterType : String) :
    OpOut (List TaskDict × String) :=
  { result := (getTasksRun c B projectName filterType).1,
    trace := (getTasksRun c B projectName filterType).2,
    conn := c }

/-- `TaskQueryManager.delete_all_tasks`: project-wide search capped at
1000 results, one DELETE with `deleteSubtasks=true` per returned issue,
and the count reported in the message. -/
def deleteAllTasksRun (c : Conn) (B : Backend) (projectName : String) :
    Except JErr String × List Request :=
  let jql := "project = " ++ c.projectKey
  let issues := B.searchResult jql 1000
  (.ok ("All " ++ Nat.repr issues.length ++ " tasks in project \x27" ++ projectName
      ++ "\x27 have been deleted."),
   Request.search jql 1000 :: issues.map (fun issue => Request.deleteIssue issue.key true))

/-- `delete_all_tasks` as a method call. -/
def deleteAllTasks (c : Conn) (B : Backend) (projectName : String) : OpOut String :=
  { result := (deleteAllTasksRun c B projectName).1,
    trace := (deleteAllTasksRun c B projectName).2,
    conn := c }

/-- `CoreTaskOperations.add_task`: one POST `/issue` carrying the title
and a single-paragraph description document; the reported key is
`"None"` when the creation response was a 404 (`result` is `None`). -/
def addTaskRun (c : Conn) (B : Backend) (projectName title description : String) :
    Except JErr (Option String × String) × List Request :=
  let created := B.createResult none title
  let keyStr := match created with | some k => k | none => "None"
  (.ok (created, "Added new task \x27" ++ title ++ "\x27 to " ++ projectName
      ++ " (Key: " ++ keyStr ++ ")"),
   [.createIssue c.projectKey none ISSUE_TYPE_TASK title (some description)])

/-- `add_task` as a method call. -/
def addTask (c : Conn) (B : Backend) (projectName title description : String) :
    OpOut (Option String × String) :=
  { result := (addTaskRun c B projectName title description).1,
    trace := (addTaskRun c B projectName title description).2,
    conn := c }

/-- The to-do queue query of `get_next_task`. -/
def todoJql (projectKey : String) : String :=
  "project = " ++ projectKey ++ " AND status = \x22" ++ STATUS_TODO
    ++ "\x22 ORDER BY priority DESC, created ASC"

/-- `CoreTaskOperations.get_next_task`: first issue of the to-do queue,
or `None` with a no-tasks message. -/
def getNextTaskRun (c : Conn) (B : Backend) (projectName : String) :
    Except JErr (Option Issue × String) × List Request :=
  let jql := todoJql c.projectKey
  match B.searchResult jql 1 with
  | [] =>
    (.ok (none, "No available tasks found in \x27" ++ projectName ++ "\x27."),
     [.search jql 1])
  | issue :: _ =>
    match getDescriptionTextE issue.description with
    | .error e => (.error (.pyError e), [.search jql 1])
    | .ok d =>
      (.ok (some issue, "Next available task: " ++ issue.summary ++ " - " ++ d),
       [.search jql 1])

/-- `get_next_task` as a method call. -/
def getNextTask (c : Conn) (B : Backend) (projectName : String) :
    OpOut (Option Issue × String) :=
  { result := (getNextTaskRun c B projectName).1,
    trace := (getNextTaskRun c B projectName).2,
    conn := c }

/-- A backend whose every search response is cut to its first element.
An operation that acts only on the first returned issue cannot tell it
from the original backend. -/
def truncateSearch (B : Backend) : Backend :=
  { B with searchResult := fun jql n => (B.searchResult jql n).take 1 }

/-- Every search request in the trace asks for at most one result. -/
def searchesCapped (reqs : List Request) : Bool :=
  reqs.all (fun r => match r with | .search _ n => n == 1 | _ => true)

/-- Counts the transition POSTs in a trace. -/
def countTransitionPosts (reqs : List Request) : Nat :=
  reqs.countP (fun r => match r with | .doTransition _ _ => true | _ => false)

/-- Counts the DELETE requests in a trace. -/
def countDeletes (reqs : List Request) : Nat :=
  reqs.countP (fun r => match r with | .deleteIssue _ _ => true | _ => false)

/-- Reading of the claimed extraction, for the well-formed fragment:
the texts a `"text"`-typed node contributes (its `"text"` value,
defaulting to `""`). -/
def nodeTexts (node : Json) : List String :=
  match node with
  | .obj fs =>
    if (match fs.find? (fun p => p.1 == "type") with
        | some p => p.2.eqStr "text"
        | none => false) then
      [match fs.find? (fun p => p.1 == "text") with
       | some ⟨_, .str s⟩ => s
       | _ => ""]
    else []
  | _ => []

/-- Reading of the claimed extraction: the texts a `"paragraph"`-typed
block with a `"content"` list contributes. -/
def blockTexts (block : Json) : List String :=
  match block with
  | .obj fs =>
    if (match fs.find? (fun p => p.1 == "type") with
        | some p => p.2.eqStr "paragraph"
        | none => false) then
      match fs.find? (fun p => p.1 == "content") with
      | some ⟨_, .arr nodes⟩ => nodes.flatMap nodeTexts
      | _ => []
    else []
  | _ => []

/-- Reading of the claimed extraction over the whole description. -/
def docTexts (description : Json) : List String :=
  match description with
  | .obj fs =>
    match fs.find? (fun p => p.1 == "content") with
    | some ⟨_, .arr blocks⟩ => blocks.flatMap blockTexts
    | _ => []
  | _ => []

/-- A concrete connection for evaluating the theorems. -/
def wConn : Conn := connInit "http://jira.example" "user" "token" "PK"

/-- A concrete two-text-node description document. -/
def wDescription : Json :=
  Json.obj
    [("type", Json.str "doc"), ("version", Json.num 1),
     ("content", Json.arr
       [Json.obj
         [("type", Json.str "paragraph"),
          ("content", Json.arr
            [Json.obj [("type", Json.str "text"), ("text", Json.str "hello")],
             Json.obj [("type", Json.str "text"), ("text", Json.str "world")]])]])]

/-- A concrete issue. -/
def wIssue : Issue :=
  { key := "PK-1", summary := "T", statusName := "To Do", description := wDescription }

/-- A second concrete issue. -/
def wIssue2 : Issue :=
  { key := "PK-2", summary := "U", statusName := "Done", description := Json.null }

/-- A backend whose searches find `wIssue` and whose transitions offer
`Done` under the id `"31"`. -/
def wBackend : Backend :=
  { searchResult := fun _ _ => [wIssue],
    transitionsOf := fun _ => [{ id := "31", toName := "Done" }],
    createResult := fun _ _ => some "PK-9" }

/-- A backend whose searches find two issues. -/
def wBackendTwo : Backend :=
  { searchResult := fun _ _ => [wIssue, wIssue2],
    transitionsOf := fun _ => [],
    createResult := fun _ _ => none }

/-- A backend whose every search comes back empty. -/
def emptyBackend : Backend :=
  { searchResult := fun _ _ => [],
    transitionsOf := fun _ => [],
    createResult := fun _ _ => none }

/-- A backend whose transitions offer `Done`, but under the falsy id
`""`. -/
def emptyIdBackend : Backend :=
  { searchResult := fun _ _ => [wIssue],
    transitionsOf := fun _ => [{ id := "", toName := "Done" }],
    createResult := fun _ _ => none }

/-- Shared equivalence of the duplicated finders, checklist copy vs
status copy. -/
theorem checklistMgrFind_eq (ts : List Transition) (targetStatus : String) :
    checklistMgrFindTransitionId ts targetStatus
      = statusMgrFindTransitionId ts targetStatus := by
  induction ts with
  | nil => rfl
  | cons t ts ih =>
    by_cases h : t.toName = targetStatus <;>
      simp [checklistMgrFindTransitionId, statusMgrFindTransitionId, h, ih]

/-- Shared equivalence of the duplicated finders, manager copy vs
status copy. -/
theorem taskMgrFind_eq (ts : List Transition) (targetStatus : String) :
    taskMgrFindTransitionId ts targetStatus
      = statusMgrFindTransitionId ts targetStatus := by
  induction ts with
  | nil => rfl
  | cons t ts ih =>
    by_cases h : t.toName = targetStatus <;>
      simp [taskMgrFindTransitionId, statusMgrFindTransitionId, h, ih]

/-- The transition scan is the first-match search of the list. -/
theorem statusMgrFind_eq_findFirst (ts : List Transition) (targetStatus : String) :
    statusMgrFindTransitionId ts targetStatus
      = (ts.find? (fun t => t.toName == targetStatus)).map Transition.id := by
  induction ts with
  | nil => rfl
  | cons t ts ih =>
    by_cases h : t.toName = targetStatus
    · simp [statusMgrFindTransitionId, List.find?, h]
    · have hb : (t.toName == targetStatus) = false := by simp [h]
      simp [statusMgrFindTransitionId, List.find?, h, hb, ih]

/-- Claim C1: for every issue and every target status name, the
transition resolution returns the id of the first transition in the
fetched transitions list whose `to` status name equals the requested
name under exact case-sensitive string equality, and returns `None`
when no transition in the list has that target name. -/
theorem findTransitionId_first_match (B : Backend) (issueKey targetStatus : String) :
    findTransitionId B issueKey targetStatus
      = ((B.transitionsOf issueKey).find? (fun t => t.toName == targetStatus)).map
          Transition.id
    ∧ (findTransitionId B issueKey targetStatus = none
        ↔ ∀ t ∈ B.transitionsOf issueKey, t.toName ≠ targetStatus) := by
  refine ⟨statusMgrFind_eq_findFirst _ _, ?_⟩
  rw [findTransitionId, statusMgrFind_eq_findFirst]
  simp [List.find?_eq_none]

/-- Claim C5: `normalize_status` maps `Done` to `done`, `In Progress`
to `wip`, and every other string (including `To Do`) to `todo`, so for
every input its result is one of exactly three fixed values. -/
theorem normalizeStatus_spec :
    normalizeStatus STATUS_DONE = "done"
    ∧ normalizeStatus STATUS_IN_PROGRESS = "wip"
    ∧ (∀ s : String, s ≠ STATUS_DONE → s ≠ STATUS_IN_PROGRESS →
        normalizeStatus s = "todo")
    ∧ (∀ s : String, normalizeStatus s = "done" ∨ normalizeStatus s = "wip"
        ∨ normalizeStatus s = "todo") := by
  refine ⟨by simp [normalizeStatus, STATUS_DONE, STATUS_IN_PROGRESS], rfl, ?_, ?_⟩
  · intro s h1 h2
    simp [normalizeStatus, h1, h2]
  · intro s
    by_cases h1 : s = STATUS_DONE
    · exact Or.inl (by simp [normalizeStatus, h1])
    · by_cases h2 : s = STATUS_IN_PROGRESS
      · exact Or.inr (Or.inl (by
          simp [normalizeStatus, h1, h2, STATUS_IN_PROGRESS, STATUS_DONE]))
      · exact Or.inr (Or.inr (by simp [normalizeStatus, h1, h2]))

/-- Witness for claim C5 at the statuses `To Do` and `Blocked`. -/
theorem normalizeStatus_spec_witness :
    normalizeStatus "To Do" = "todo" ∧ normalizeStatus "Blocked" = "todo" :=
  ⟨normalizeStatus_spec.2.2.1 "To Do" (by decide) (by decide),
   normalizeStatus_spec.2.2.1 "Blocked" (by decide) (by decide)⟩

/-- Claim C6: the three duplicated `_find_transition_id`
implementations agree: on the same fetched transitions list for the
same issue key and the same target status name they return the same id,
or all return `None`. -/
theorem findTransitionId_implementations_agree (B : Backend)
    (issueKey targetStatus : String) :
    statusMgrFindTransitionId (B.transitionsOf issueKey) targetStatus
      = checklistMgrFindTransitionId (B.transitionsOf issueKey) targetStatus
    ∧ checklistMgrFindTransitionId (B.transitionsOf issueKey) targetStatus
      = taskMgrFindTransitionId (B.transitionsOf issueKey) targetStatus := by
  refine ⟨(checklistMgrFind_eq _ _).symm, ?_⟩
  rw [checklistMgrFind_eq, taskMgrFind_eq]

/-- Claim C7: every operation leaves the connection attributes
(`server_url`, `auth`, `project_key`, `base_url`) as they were after
construction and stores no other state between calls: the source
assigns these attributes in `__init__` only, so the embedded methods
thread the attribute record through unchanged. -/
theorem operations_preserve_connection (c : Conn) (B : Backend)
    (now projectName title targetStatus itemName description filterType : String)
    (checklistItems : List String) :
    (addTask c B projectName title description).conn = c
    ∧ (getNextTask c B projectName).conn = c
    ∧ (getTaskStatus c B projectName title).conn = c
    ∧ (setTaskStatus c B projectName title targetStatus).conn = c
    ∧ (markAsInProgress c B projectName title).conn = c
    ∧ (markAsCompleted c B projectName title).conn = c
    ∧ (updateTaskDescription c B now projectName title description).conn = c
    ∧ (updateTaskWithChecklist c B projectName title checklistItems).conn = c
    ∧ (completeChecklistItem c B projectName title itemName).conn = c
    ∧ (getNextUncheckedChecklistItem c B projectName title).conn = c
    ∧ (getTasks c B projectName filterType).conn = c
    ∧ (deleteAllTasks c B projectName).conn = c :=
  ⟨rfl, rfl, rfl, rfl, rfl, rfl, rfl, rfl, rfl, rfl, rfl, rfl⟩

/-- Claim C2 counterexample: against a backend whose `Done` transition
carries the empty-string id, `_set_task_status` finds the issue and a
transition matching the target exists, yet the operation sends no
transition request and reports the transition as not available — the
Python guard `if not transition_id` treats the falsy id `""` like
`None`. -/
theorem setTaskStatus_matching_transition_not_applied :
    (emptyIdBackend.transitionsOf "PK-1").any (fun t => t.toName == "Done") = true
    ∧ countTransitionPosts (setTaskStatusRun wConn emptyIdBackend "P" "T" "Done").2 = 0
    ∧ (setTaskStatusRun wConn emptyIdBackend "P" "T" "Done").1
        = .ok (wIssue, "Cannot transition task \x27T\x27 to Done (transition not available)") :=
  ⟨rfl, rfl, rfl⟩

/-- Claim C2 (amended): for every status-changing operation, when the
issue is found but the transition scan returns `None` — or the falsy id
`""` — the operation returns the found issue with the cannot message
and sends no transition request; when the scan returns a non-empty id,
exactly one transition request carrying that id is sent. -/
theorem statusChange_transition_behavior (c : Conn) (B : Backend)
    (projectName title targetStatus checklistItemName : String) :
    (∀ issue rest, B.searchResult (titleJql c.projectKey title) 1 = issue :: rest →
      (statusMgrFindTransitionId (B.transitionsOf issue.key) targetStatus = none →
        setTaskStatusRun c B projectName title targetStatus
          = (.ok (issue, "Cannot transition task \x27" ++ title ++ "\x27 to "
                ++ targetStatus ++ " (transition not available)"),
             [.search (titleJql c.projectKey title) 1, .getTransitions issue.key]))
      ∧ (statusMgrFindTransitionId (B.transitionsOf issue.key) targetStatus = some "" →
          setTaskStatusRun c B projectName title targetStatus
            = (.ok (issue, "Cannot transition task \x27" ++ title ++ "\x27 to "
                  ++ targetStatus ++ " (transition not available)"),
               [.search (titleJql c.projectKey title) 1, .getTransitions issue.key]))
      ∧ (∀ tid, statusMgrFindTransitionId (B.transitionsOf issue.key) targetStatus
            = some tid → tid ≠ "" →
          setTaskStatusRun c B projectName title targetStatus
            = (.ok (issue, "Task \x27" ++ title ++ "\x27 status set to "
                  ++ targetStatus ++ "."),
               [.search (titleJql c.projectKey title) 1, .getTransitions issue.key,
                .doTransition issue.key tid])
          ∧ countTransitionPosts
              (setTaskStatusRun c B projectName title targetStatus).2 = 1))
    ∧ markAsInProgressRun c B projectName title
        = setTaskStatusRun c B projectName title STATUS_IN_PROGRESS
    ∧ markAsCompletedRun c B projectName title
        = setTaskStatusRun c B projectName title STATUS_DONE
    ∧ (∀ parent prest,
        B.searchResult (titleJql c.projectKey title) 1 = parent :: prest →
        ∀ sub srest,
        B.searchResult (parentItemJql parent.key checklistItemName) 1 = sub :: srest →
        (checklistMgrFindTransitionId (B.transitionsOf sub.key) STATUS_DONE = none →
          completeChecklistItemRun c B projectName title checklistItemName
            = (.ok (sub, "Cannot complete checklist item \x27" ++ checklistItemName
                  ++ "\x27 (transition not available)"),
               [.search (titleJql c.projectKey title) 1,
                .search (parentItemJql parent.key checklistItemName) 1,
                .getTransitions sub.key]))
        ∧ (checklistMgrFindTransitionId (B.transitionsOf sub.key) STATUS_DONE
              = some "" →
            completeChecklistItemRun c B projectName title checklistItemName
              = (.ok (sub, "Cannot complete checklist item \x27" ++ checklistItemName
                    ++ "\x27 (transition not available)"),
                 [.search (titleJql c.projectKey title) 1,
                  .search (parentItemJql parent.key checklistItemName) 1,
                  .getTransitions sub.key]))
        ∧ (∀ tid, checklistMgrFindTransitionId (B.transitionsOf sub.key) STATUS_DONE
              = some tid → tid ≠ "" →
            completeChecklistItemRun c B projectName title checklistItemName
              = (.ok (sub, "Checklist item \x27" ++ checklistItemName
                    ++ "\x27 in task \x27" ++ title ++ "\x27 in project \x27"
                    ++ projectName ++ "\x27 completed."),
                 [.search (titleJql c.projectKey title) 1,
                  .search (parentItemJql parent.key checklistItemName) 1,
                  .getTransitions sub.key, .doTransition sub.key tid])
            ∧ countTransitionPosts
                (completeChecklistItemRun c B projectName title checklistItemName).2
                  = 1)) := by
  refine ⟨?_, rfl, rfl, ?_⟩
  · intro issue rest h
    refine ⟨?_, ?_, ?_⟩
    · intro hfind
      simp [setTaskStatusRun, h, hfind]
    · intro hfind
      simp [setTaskStatusRun, h, hfind]
    · intro tid hfind hne
      constructor
      · simp [setTaskStatusRun, h, hfind, hne]
      · simp [countTransitionPosts, setTaskStatusRun, h, hfind, hne, List.countP,
          List.countP.go]
  · intro parent prest h1 sub srest h2
    refine ⟨?_, ?_, ?_⟩
    · intro hfind
      simp [completeChecklistItemRun, h1, h2, hfind]
    · intro hfind
      simp [completeChecklistItemRun, h1, h2, hfind]
    · intro tid hfind hne
      constructor
      · simp [completeChecklistItemRun, h1, h2, hfind, hne]
      · simp [countTransitionPosts, completeChecklistItemRun, h1, h2, hfind, hne,
          List.countP, List.countP.go]

/-- Witness for claim C2: against a backend offering `Done` under the
id `31`, setting a found task to `Done` sends exactly the one
transition request, and completing a found checklist item does too. -/
theorem statusChange_transition_behavior_witness :
    setTaskStatusRun wConn wBackend "P" "T" "Done"
      = (.ok (wIssue, "Task \x27T\x27 status set to Done."),
         [.search (titleJql "PK" "T") 1, .getTransitions "PK-1",
          .doTransition "PK-1" "31"])
    ∧ countTransitionPosts (setTaskStatusRun wConn wBackend "P" "T" "Done").2 = 1
    ∧ completeChecklistItemRun wConn wBackend "P" "T" "I1"
        = (.ok (wIssue, "Checklist item \x27I1\x27 in task \x27T\x27 in project \x27P\x27 completed."),
           [.search (titleJql "PK" "T") 1, .search (parentItemJql "PK-1" "I1") 1,
            .getTransitions "PK-1", .doTransition "PK-1" "31"]) := by
  have h := (statusChange_transition_behavior wConn wBackend "P" "T" "Done" "I1").1
    wIssue [] rfl
  have hset := h.2.2 "31" rfl (by decide)
  have hc := (statusChange_transition_behavior wConn wBackend "P" "T" "Done" "I1").2.2.2
    wIssue [] rfl wIssue [] rfl
  have hcc := hc.2.2 "31" rfl (by decide)
  exact ⟨hset.1, hset.2, hcc.1⟩

/-- Not-found behaviour of `get_task_status`. -/
theorem getTaskStatusRun_notFound (c : Conn) (B : Backend) (projectName title : String) :
    ((getTaskStatusRun c B projectName title).1
        = .error (.taskNotFound projectName title)
      ↔ B.searchResult (titleJql c.projectKey title) 1 = [])
    ∧ (B.searchResult (titleJql c.projectKey title) 1 = [] →
        (getTaskStatusRun c B projectName title).2
          = [.search (titleJql c.projectKey title) 1]) := by
  rcases h : B.searchResult (titleJql c.projectKey title) 1 with _ | ⟨issue, rest⟩
  · exact ⟨by simp [getTaskStatusRun, h], fun _ => by simp [getTaskStatusRun, h]⟩
  · refine ⟨by simp [getTaskStatusRun, h], ?_⟩
    exact fun hemp => List.noConfusion hemp

/-- Not-found behaviour of `_set_task_status`. -/
theorem setTaskStatusRun_notFound (c : Conn) (B : Backend)
    (projectName title targetStatus : String) :
    ((setTaskStatusRun c B projectName title targetStatus).1
        = .error (.taskNotFound projectName title)
      ↔ B.searchResult (titleJql c.projectKey title) 1 = [])
    ∧ (B.searchResult (titleJql c.projectKey title) 1 = [] →
        (setTaskStatusRun c B projectName title targetStatus).2
          = [.search (titleJql c.projectKey title) 1]) := by
  rcases h : B.searchResult (titleJql c.projectKey title) 1 with _ | ⟨issue, rest⟩
  · exact ⟨by simp [setTaskStatusRun, h], fun _ => by simp [setTaskStatusRun, h]⟩
  · refine ⟨?_, ?_⟩
    · simp only [setTaskStatusRun, h]
      rcases hf : statusMgrFindTransitionId (B.transitionsOf issue.key) targetStatus
        with _ | tid
      · simp [hf]
      · by_cases he : tid = "" <;> simp [hf, he]
    · exact fun hemp => List.noConfusion hemp

/-- Not-found behaviour of `update_task_description`. -/
theorem updateTaskDescriptionRun_notFound (c : Conn) (B : Backend)
    (now projectName title description : String) :
    ((updateTaskDescriptionRun c B now projectName title description).1
        = .error (.taskNotFound projectName title)
      ↔ B.searchResult (titleJql c.projectKey title) 1 = [])
    ∧ (B.searchResult (titleJql c.projectKey title) 1 = [] →
        (updateTaskDescriptionRun c B now projectName title description).2
          = [.search (titleJql c.projectKey title) 1]) := by
  rcases h : B.searchResult (titleJql c.projectKey title) 1 with _ | ⟨issue, rest⟩
  · exact ⟨by simp [updateTaskDescriptionRun, h],
      fun _ => by simp [updateTaskDescriptionRun, h]⟩
  · refine ⟨?_, ?_⟩
    · simp only [updateTaskDescriptionRun, h]
      rcases hd : getDescriptionTextE issue.description with e | cur <;> simp [hd]
    · exact fun hemp => List.noConfusion hemp

/-- Not-found behaviour of `update_task_with_checklist`. -/
theorem updateTaskWithChecklistRun_notFound (c : Conn) (B : Backend)
    (projectName title : String) (checklistItems : List String) :
    ((updateTaskWithChecklistRun c B projectName title checklistItems).1
        = .error (.taskNotFound projectName title)
      ↔ B.searchResult (titleJql c.projectKey title) 1 = [])
    ∧ (B.searchResult (titleJql c.projectKey title) 1 = [] →
        (updateTaskWithChecklistRun c B projectName title checklistItems).2
          = [.search (titleJql c.projectKey title) 1]) := by
  rcases h : B.searchResult (titleJql c.projectKey title) 1 with _ | ⟨issue, rest⟩
  · exact ⟨by simp [updateTaskWithChecklistRun, h],
      fun _ => by simp [updateTaskWithChecklistRun, h]⟩
  · refine ⟨by simp [updateTaskWithChecklistRun, h], ?_⟩
    exact fun hemp => List.noConfusion hemp

/-- Not-found behaviour of `complete_checklist_item`. -/
theorem completeChecklistItemRun_notFound (c : Conn) (B : Backend)
    (projectName title checklistItemName : String) :
    ((completeChecklistItemRun c B projectName title checklistItemName).1
        = .error (.taskNotFound projectName title)
      ↔ B.searchResult (titleJql c.projectKey title) 1 = [])
    ∧ (B.searchResult (titleJql c.projectKey title) 1 = [] →
        (completeChecklistItemRun c B projectName title checklistItemName).2
          = [.search (titleJql c.projectKey title) 1]) := by
  rcases h : B.searchResult (titleJql c.projectKey title) 1 with _ | ⟨issue, rest⟩
  · exact ⟨by simp [completeChecklistItemRun, h],
      fun _ => by simp [completeChecklistItemRun, h]⟩
  · refine ⟨?_, ?_⟩
    · simp only [completeChecklistItemRun, h]
      rcases h2 : B.searchResult (parentItemJql issue.key checklistItemName) 1
        with _ | ⟨sub, srest⟩
      · simp [h2]
      · rcases hf : checklistMgrFindTransitionId (B.transitionsOf sub.key) STATUS_DONE
          with _ | tid
        · simp [h2, hf]
        · by_cases he : tid = "" <;> simp [h2, hf, he]
    · exact fun hemp => List.noConfusion hemp

/-- Not-found behaviour of `get_next_unchecked_checklist_item`. -/
theorem getNextUncheckedRun_notFound (c : Conn) (B : Backend)
    (projectName title : String) :
    ((getNextUncheckedChecklistItemRun c B projectName title).1
        = .error (.taskNotFound projectName title)
      ↔ B.searchResult (titleJql c.projectKey title) 1 = [])
    ∧ (B.searchResult (titleJql c.projectKey title) 1 = [] →
        (getNextUncheckedChecklistItemRun c B projectName title).2
          = [.search (titleJql c.projectKey title) 1]) := by
  rcases h : B.searchResult (titleJql c.projectKey title) 1 with _ | ⟨issue, rest⟩
  · exact ⟨by simp [getNextUncheckedChecklistItemRun, h],
      fun _ => by simp [getNextUncheckedChecklistItemRun, h]⟩
  · refine ⟨?_, ?_⟩
    · simp only [getNextUncheckedChecklistItemRun, h]
      rcases h2 : B.searchResult (nextUncheckedJql issue.key) 1 with _ | ⟨sub, srest⟩ <;>
        simp [h2]
    · exact fun hemp => List.noConfusion hemp

/-- Claim C8: for every title-based operation, `TaskNotFoundError`
carrying the given project name and title is raised exactly when the
title search returns an empty issue list, and in that case the
operation issues no request beyond that one search — nothing is
created, updated, transitioned or deleted. -/
theorem titleLookup_notFound_behavior (c : Conn) (B : Backend)
    (now projectName title targetStatus checklistItemName description : String)
    (checklistItems : List String) :
    (((setTaskStatusRun c B projectName title targetStatus).1
        = .error (.taskNotFound projectName title)
      ↔ B.searchResult (titleJql c.projectKey title) 1 = [])
    ∧ (B.searchResult (titleJql c.projectKey title) 1 = [] →
        (setTaskStatusRun c B projectName title targetStatus).2
          = [.search (titleJql c.projectKey title) 1]))
    ∧ (((markAsInProgressRun c B projectName title).1
        = .error (.taskNotFound projectName title)
      ↔ B.searchResult (titleJql c.projectKey title) 1 = [])
    ∧ (B.searchResult (titleJql c.projectKey title) 1 = [] →
        (markAsInProgressRun c B projectName title).2
          = [.search (titleJql c.projectKey title) 1]))
    ∧ (((markAsCompletedRun c B projectName title).1
        = .error (.taskNotFound projectName title)
      ↔ B.searchResult (titleJql c.projectKey title) 1 = [])
    ∧ (B.searchResult (titleJql c.projectKey title) 1 = [] →
        (markAsCompletedRun c B projectName title).2
          = [.search (titleJql c.projectKey title) 1]))
    ∧ (((getTaskStatusRun c B projectName title).1
        = .error (.taskNotFound projectName title)
      ↔ B.searchResult (titleJql c.projectKey title) 1 = [])
    ∧ (B.searchResult (titleJql c.projectKey title) 1 = [] →
        (getTaskStatusRun c B projectName title).2
          = [.search (titleJql c.projectKey title) 1]))
    ∧ (((updateTaskDescriptionRun c B now projectName title description).1
        = .error (.taskNotFound projectName title)
      ↔ B.searchResult (titleJql c.projectKey title) 1 = [])
    ∧ (B.searchResult (titleJql c.projectKey title) 1 = [] →
        (updateTaskDescriptionRun c B now projectName title description).2
          = [.search (titleJql c.projectKey title) 1]))
    ∧ (((updateTaskWithChecklistRun c B projectName title checklistItems).1
        = .error (.taskNotFound projectName title)
      ↔ B.searchResult (titleJql c.projectKey title) 1 = [])
    ∧ (B.searchResult (titleJql c.projectKey title) 1 = [] →
        (updateTaskWithChecklistRun c B projectName title checklistItems).2
          = [.search (titleJql c.projectKey title) 1]))
    ∧ (((completeChecklistItemRun c B projectName title checklistItemName).1
        = .error (.taskNotFound projectName title)
      ↔ B.searchResult (titleJql c.projectKey title) 1 = [])
    ∧ (B.searchResult (titleJql c.projectKey title) 1 = [] →
        (completeChecklistItemRun c B projectName title checklistItemName).2
          = [.search (titleJql c.projectKey title) 1]))
    ∧ (((getNextUncheckedChecklistItemRun c B projectName title).1
        = .error (.taskNotFound projectName title)
      ↔ B.searchResult (titleJql c.projectKey title) 1 = [])
    ∧ (B.searchResult (titleJql c.projectKey title) 1 = [] →
        (getNextUncheckedChecklistItemRun c B projectName title).2
          = [.search (titleJql c.projectKey title) 1])) :=
  ⟨setTaskStatusRun_notFound c B projectName title targetStatus,
   setTaskStatusRun_notFound c B projectName title STATUS_IN_PROGRESS,
   setTaskStatusRun_notFound c B projectName title STATUS_DONE,
   getTaskStatusRun_notFound c B projectName title,
   updateTaskDescriptionRun_notFound c B now projectName title description,
   updateTaskWithChecklistRun_notFound c B projectName title checklistItems,
   completeChecklistItemRun_notFound c B projectName title checklistItemName,
   getNextUncheckedRun_notFound c B projectName title⟩

/-- Witness for claim C8 against a backend whose searches are empty:
the operations raise `TaskNotFoundError` and stop after the one search. -/
theorem titleLookup_notFound_behavior_witness :
    (setTaskStatusRun wConn emptyBackend "P" "T" "Done").1
        = .error (.taskNotFound "P" "T")
    ∧ (updateTaskWithChecklistRun wConn emptyBackend "P" "T" ["a", "b"]).2
        = [.search (titleJql "PK" "T") 1]
    ∧ (completeChecklistItemRun wConn emptyBackend "P" "T" "I1").2
        = [.search (titleJql "PK" "T") 1] := by
  have h := titleLookup_notFound_behavior wConn emptyBackend "now" "P" "T" "Done" "I1"
    "d" ["a", "b"]
  exact ⟨h.1.1.mpr rfl, h.2.2.2.2.2.1.2 rfl, h.2.2.2.2.2.2.1.2 rfl⟩

/-- One DELETE per issue: the delete count of the trace of
`delete_all_tasks` is the number of issues returned by the search. -/
theorem countDeletes_trace (jql : String) (issues : List Issue) :
    countDeletes (Request.search jql 1000
        :: issues.map (fun issue => Request.deleteIssue issue.key true))
      = issues.length := by
  induction issues with
  | nil => rfl
  | cons i is ih =>
    simp [countDeletes, List.countP_cons] at ih ⊢

/-- Claim C9: `delete_all_tasks` issues exactly one DELETE (with
`deleteSubtasks=true`) per issue returned by a project-wide search
capped at 1000 results, reports exactly that count in its message, and
therefore deletes at most 1000 issues per call whenever the backend
honours the 1000-result cap. -/
theorem deleteAllTasks_spec (c : Conn) (B : Backend) (projectName : String) :
    (deleteAllTasksRun c B projectName).1
      = .ok ("All "
          ++ Nat.repr (B.searchResult ("project = " ++ c.projectKey) 1000).length
          ++ " tasks in project \x27" ++ projectName ++ "\x27 have been deleted.")
    ∧ (deleteAllTasksRun c B projectName).2
      = Request.search ("project = " ++ c.projectKey) 1000
        :: (B.searchResult ("project = " ++ c.projectKey) 1000).map
             (fun issue => Request.deleteIssue issue.key true)
    ∧ countDeletes (deleteAllTasksRun c B projectName).2
        = (B.searchResult ("project = " ++ c.projectKey) 1000).length
    ∧ ((B.searchResult ("project = " ++ c.projectKey) 1000).length ≤ 1000 →
        countDeletes (deleteAllTasksRun c B projectName).2 ≤ 1000) := by
  refine ⟨rfl, rfl, countDeletes_trace _ _, ?_⟩
  intro hle
  exact (countDeletes_trace ("project = " ++ c.projectKey)
    (B.searchResult ("project = " ++ c.projectKey) 1000)).trans_le hle

/-- Witness for claim C9 against a backend returning two issues. -/
theorem deleteAllTasks_spec_witness :
    countDeletes (deleteAllTasksRun wConn wBackendTwo "P").2 ≤ 1000
    ∧ (deleteAllTasksRun wConn wBackendTwo "P").2
      = [Request.search "project = PK" 1000, Request.deleteIssue "PK-1" true,
         Request.deleteIssue "PK-2" true] := by
  have h := deleteAllTasks_spec wConn wBackendTwo "P"
  exact ⟨h.2.2.2 (by decide), h.2.1⟩

/-- The conversion loop of `get_tasks` yields one dictionary per issue,
in order, with the claimed four fields. -/
theorem buildTaskDicts_ok (issues : List Issue) (tasks : List TaskDict)
    (h : buildTaskDicts issues = .ok tasks) :
    tasks.length = issues.length
    ∧ ∀ i (hi : i < tasks.length) (hi2 : i < issues.length),
        (tasks.get ⟨i, hi⟩).name = (issues.get ⟨i, hi2⟩).summary
        ∧ (tasks.get ⟨i, hi⟩).id = (issues.get ⟨i, hi2⟩).key
        ∧ (tasks.get ⟨i, hi⟩).status = normalizeStatus (issues.get ⟨i, hi2⟩).statusName
        ∧ getDescriptionTextE (issues.get ⟨i, hi2⟩).description
            = .ok ((tasks.get ⟨i, hi⟩).description) := by
  induction issues generalizing tasks with
  | nil =>
    simp only [buildTaskDicts] at h
    cases h
    refine ⟨rfl, ?_⟩
    intro i hi _
    exact absurd hi (by simp)
  | cons issue rest ih =>
    simp only [buildTaskDicts] at h
    rcases hd : getDescriptionTextE issue.description with e | d <;> rw [hd] at h
    · exact absurd h (by simp)
    · rcases hr : buildTaskDicts rest with e2 | ts <;> rw [hr] at h
      · exact absurd h (by simp)
      · simp only [Except.ok.injEq] at h
        subst h
        refine ⟨by simp [(ih ts hr).1], ?_⟩
        intro i hi hi2
        cases i with
        | zero => exact ⟨rfl, rfl, rfl, hd⟩
        | succ n =>
          exact (ih ts hr).2 n (Nat.lt_of_succ_lt_succ hi)
            (Nat.lt_of_succ_lt_succ hi2)

/-- Claim C4: for every filter type, `get_tasks` queries with the
status restriction `In Progress` for `wip`, `Done` for `done`, and no
restriction otherwise; it returns one task dictionary per returned
issue, in the same order, whose name is the issue summary, id the issue
key, status the normalised status and description the extracted plain
text, together with a message reporting the number of tasks found (or a
no-tasks message when the list is empty). -/
theorem getTasks_spec (c : Conn) (B : Backend) (projectName filterType : String) :
    statusFilterJql c.projectKey filterType
      = (if filterType = "wip" then
           "project = " ++ c.projectKey ++ " AND status = \x22In Progress\x22"
         else if filterType = "done" then
           "project = " ++ c.projectKey ++ " AND status = \x22Done\x22"
         else "project = " ++ c.projectKey)
    ∧ (getTasksRun c B projectName filterType).2
        = [.search (statusFilterJql c.projectKey filterType) 50]
    ∧ ∀ tasks msg,
        (getTasksRun c B projectName filterType).1 = .ok (tasks, msg) →
        tasks.length
            = (B.searchResult (statusFilterJql c.projectKey filterType) 50).length
        ∧ (∀ i (hi : i < tasks.length)
              (hi2 : i < (B.searchResult
                  (statusFilterJql c.projectKey filterType) 50).length),
            (tasks.get ⟨i, hi⟩).name
                = ((B.searchResult (statusFilterJql c.projectKey filterType) 50).get
                    ⟨i, hi2⟩).summary
            ∧ (tasks.get ⟨i, hi⟩).id
                = ((B.searchResult (statusFilterJql c.projectKey filterType) 50).get
                    ⟨i, hi2⟩).key
            ∧ (tasks.get ⟨i, hi⟩).status
                = normalizeStatus ((B.searchResult
                    (statusFilterJql c.projectKey filterType) 50).get ⟨i, hi2⟩).statusName
            ∧ getDescriptionTextE ((B.searchResult
                  (statusFilterJql c.projectKey filterType) 50).get ⟨i, hi2⟩).description
                = .ok ((tasks.get ⟨i, hi⟩).description))
        ∧ msg =
            (if tasks.isEmpty then
              if filterType = "all" then
                "No tasks found in project \x27" ++ projectName ++ "\x27."
              else if filterType = "wip" then
                "No work in progress tasks found in project \x27" ++ projectName ++ "\x27."
              else if filterType = "done" then
                "No completed tasks found in project \x27" ++ projectName ++ "\x27."
              else
                "No tasks found with filter \x27" ++ filterType ++ "\x27 in project \x27"
                  ++ projectName ++ "\x27."
            else
              if filterType = "all" then
                "Found " ++ Nat.repr tasks.length ++ " task(s) in project \x27"
                  ++ projectName ++ "\x27."
              else if filterType = "wip" then
                "Found " ++ Nat.repr tasks.length
                  ++ " work in progress task(s) in project \x27" ++ projectName ++ "\x27."
              else if filterType = "done" then
                "Found " ++ Nat.repr tasks.length ++ " completed task(s) in project \x27"
                  ++ projectName ++ "\x27."
              else
                "Found " ++ Nat.repr tasks.length ++ " task(s) with filter \x27"
                  ++ filterType ++ "\x27 in project \x27" ++ projectName ++ "\x27") := by
  refine ⟨?_, ?_, ?_⟩
  · by_cases h1 : filterType = "wip"
    · simp [statusFilterJql, h1, STATUS_IN_PROGRESS, String.append_assoc]
    · by_cases h2 : filterType = "done"
      · simp [statusFilterJql, h1, h2, STATUS_DONE, String.append_assoc]
      · simp [statusFilterJql, h1, h2]
  · rcases hb : buildTaskDicts
        (B.searchResult (statusFilterJql c.projectKey filterType) 50) with e | ts <;>
      simp [getTasksRun, hb]
  · intro tasks msg hok
    simp only [getTasksRun] at hok
    rcases hb : buildTaskDicts
        (B.searchResult (statusFilterJql c.projectKey filterType) 50) with e | ts <;>
      rw [hb] at hok
    · exact absurd hok (by simp)
    · simp only [Except.ok.injEq, Prod.mk.injEq] at hok
      obtain ⟨hts, hmsg⟩ := hok
      subst hts
      have hmain := buildTaskDicts_ok _ ts hb
      refine ⟨hmain.1, hmain.2, ?_⟩
      rw [← hmsg]
      simp [generateResultMessage]

/-- Witness for claim C4 at the `all` filter over a one-issue backend. -/
theorem getTasks_spec_witness :
    (getTasksRun wConn wBackend "P" "all").2
      = [Request.search (statusFilterJql "PK" "all") 50]
    ∧ ([(⟨"T", "hello world", "todo", "PK-1"⟩ : TaskDict)]).length
        = (wBackend.searchResult (statusFilterJql "PK" "all") 50).length := by
  have h := getTasks_spec wConn wBackend "P" "all"
  have h3 := h.2.2 [(⟨"T", "hello world", "todo", "PK-1"⟩ : TaskDict)]
    "Found 1 task(s) in project \x27P\x27." rfl
  exact ⟨h.2.1, h3.1⟩

/-- `update_task_with_checklist`\x27s creation loop never reads search
responses, so truncating them changes nothing. -/
theorem createSubtasks_truncate (c : Conn) (B : Backend) (parentKey : String)
    (items : List String) :
    createSubtasks c (truncateSearch B) parentKey items
      = createSubtasks c B parentKey items := by
  induction items with
  | nil => rfl
  | cons item rest ih =>
    simp only [truncateSearch] at ih ⊢
    rcases hc : B.createResult (some parentKey) item with _ | k <;>
      simp [createSubtasks, hc, ih]

/-- First-result discipline of `_set_task_status`. -/
theorem setTaskStatusRun_firstOnly (c : Conn) (B : Backend)
    (projectName title targetStatus : String) :
    searchesCapped (setTaskStatusRun c B projectName title targetStatus).2 = true
    ∧ setTaskStatusRun c B projectName title targetStatus
        = setTaskStatusRun c (truncateSearch B) projectName title targetStatus := by
  rcases h : B.searchResult (titleJql c.projectKey title) 1 with _ | ⟨issue, rest⟩
  · exact ⟨by simp [setTaskStatusRun, h, searchesCapped],
      by simp [setTaskStatusRun, truncateSearch, h]⟩
  · refine ⟨?_, by simp [setTaskStatusRun, truncateSearch, h]⟩
    rcases hf : statusMgrFindTransitionId (B.transitionsOf issue.key) targetStatus
      with _ | tid
    · simp [setTaskStatusRun, h, hf, searchesCapped]
    · by_cases he : tid = "" <;> simp [setTaskStatusRun, h, hf, he, searchesCapped]

/-- First-result discipline of `get_task_status`. -/
theorem getTaskStatusRun_firstOnly (c : Conn) (B : Backend)
    (projectName title : String) :
    searchesCapped (getTaskStatusRun c B projectName title).2 = true
    ∧ getTaskStatusRun c B projectName title
        = getTaskStatusRun c (truncateSearch B) projectName title := by
  rcases h : B.searchResult (titleJql c.projectKey title) 1 with _ | ⟨issue, rest⟩ <;>
    exact ⟨by simp [getTaskStatusRun, h, searchesCapped],
      by simp [getTaskStatusRun, truncateSearch, h]⟩

/-- First-result discipline of `update_task_description`. -/
theorem updateTaskDescriptionRun_firstOnly (c : Conn) (B : Backend)
    (now projectName title description : String) :
    searchesCapped (updateTaskDescriptionRun c B now projectName title description).2
        = true
    ∧ updateTaskDescriptionRun c B now projectName title description
        = updateTaskDescriptionRun c (truncateSearch B) now projectName title
            description := by
  rcases h : B.searchResult (titleJql c.projectKey title) 1 with _ | ⟨issue, rest⟩
  · exact ⟨by simp [updateTaskDescriptionRun, h, searchesCapped],
      by simp [updateTaskDescriptionRun, truncateSearch, h]⟩
  · refine ⟨?_, by simp [updateTaskDescriptionRun, truncateSearch, h]⟩
    rcases hd : getDescriptionTextE issue.description with e | cur <;>
      simp [updateTaskDescriptionRun, h, hd, searchesCapped]

/-- The subtask-creation requests are never searches. -/
theorem searchesCapped_createSubtasks (c : Conn) (B : Backend) (parentKey : String)
    (items : List String) :
    searchesCapped (createSubtasks c B parentKey items).2 = true := by
  induction items with
  | nil => rfl
  | cons item rest ih =>
    rcases hc : B.createResult (some parentKey) item with _ | k <;>
      simp [createSubtasks, hc, searchesCapped] <;>
      simpa [searchesCapped] using ih

/-- First-result discipline of `update_task_with_checklist`. -/
theorem updateTaskWithChecklistRun_firstOnly (c : Conn) (B : Backend)
    (projectName title : String) (checklistItems : List String) :
    searchesCapped (updateTaskWithChecklistRun c B projectName title checklistItems).2
        = true
    ∧ updateTaskWithChecklistRun c B projectName title checklistItems
        = updateTaskWithChecklistRun c (truncateSearch B) projectName title
            checklistItems := by
  rcases h : B.searchResult (titleJql c.projectKey title) 1 with _ | ⟨issue, rest⟩
  · exact ⟨by simp [updateTaskWithChecklistRun, h, searchesCapped],
      by simp [updateTaskWithChecklistRun, truncateSearch, h]⟩
  · refine ⟨?_, ?_⟩
    swap
    · have hct := createSubtasks_truncate c B issue.key checklistItems
      simp only [truncateSearch] at hct
      simp [updateTaskWithChecklistRun, truncateSearch, h, hct]
    have hcs := searchesCapped_createSubtasks c B issue.key checklistItems
    simp [updateTaskWithChecklistRun, h, searchesCapped] at hcs ⊢
    exact hcs

/-- First-result discipline of `complete_checklist_item`. -/
theorem completeChecklistItemRun_firstOnly (c : Conn) (B : Backend)
    (projectName title checklistItemName : String) :
    searchesCapped (completeChecklistItemRun c B projectName title checklistItemName).2
        = true
    ∧ completeChecklistItemRun c B projectName title checklistItemName
        = completeChecklistItemRun c (truncateSearch B) projectName title
            checklistItemName := by
  rcases h : B.searchResult (titleJql c.projectKey title) 1 with _ | ⟨issue, rest⟩
  · exact ⟨by simp [completeChecklistItemRun, h, searchesCapped],
      by simp [completeChecklistItemRun, truncateSearch, h]⟩
  · rcases h2 : B.searchResult (parentItemJql issue.key checklistItemName) 1
      with _ | ⟨sub, srest⟩
    · exact ⟨by simp [completeChecklistItemRun, h, h2, searchesCapped],
        by simp [completeChecklistItemRun, truncateSearch, h, h2]⟩
    · refine ⟨?_, by simp [completeChecklistItemRun, truncateSearch, h, h2]⟩
      rcases hf : checklistMgrFindTransitionId (B.transitionsOf sub.key) STATUS_DONE
        with _ | tid
      · simp [completeChecklistItemRun, h, h2, hf, searchesCapped]
      · by_cases he : tid = "" <;>
          simp [completeChecklistItemRun, h, h2, hf, he, searchesCapped]

/-- First-result discipline of `get_next_unchecked_checklist_item`. -/
theorem getNextUncheckedRun_firstOnly (c : Conn) (B : Backend)
    (projectName title : String) :
    searchesCapped (getNextUncheckedChecklistItemRun c B projectName title).2 = true
    ∧ getNextUncheckedChecklistItemRun c B projectName title
        = getNextUncheckedChecklistItemRun c (truncateSearch B) projectName title := by
  rcases h : B.searchResult (titleJql c.projectKey title) 1 with _ | ⟨issue, rest⟩
  · exact ⟨by simp [getNextUncheckedChecklistItemRun, h, searchesCapped],
      by simp [getNextUncheckedChecklistItemRun, truncateSearch, h]⟩
  · rcases h2 : B.searchResult (nextUncheckedJql issue.key) 1 with _ | ⟨sub, srest⟩ <;>
      exact ⟨by simp [getNextUncheckedChecklistItemRun, h, h2, searchesCapped],
        by simp [getNextUncheckedChecklistItemRun, truncateSearch, h, h2]⟩

/-- Claim C3: every title-based lookup requests at most one search
result (`max_results = 1` on every search it issues) and acts only on
the first issue returned — its whole observable behaviour is unchanged
when every search response is cut to its first element, however many
issues match the title substring. -/
theorem titleLookup_first_result_only (c : Conn) (B : Backend)
    (now projectName title targetStatus checklistItemName description : String)
    (checklistItems : List String) :
    (searchesCapped (setTaskStatusRun c B projectName title targetStatus).2 = true
      ∧ setTaskStatusRun c B projectName title targetStatus
          = setTaskStatusRun c (truncateSearch B) projectName title targetStatus)
    ∧ (searchesCapped (markAsInProgressRun c B projectName title).2 = true
      ∧ markAsInProgressRun c B projectName title
          = markAsInProgressRun c (truncateSearch B) projectName title)
    ∧ (searchesCapped (markAsCompletedRun c B projectName title).2 = true
      ∧ markAsCompletedRun c B projectName title
          = markAsCompletedRun c (truncateSearch B) projectName title)
    ∧ (searchesCapped (getTaskStatusRun c B projectName title).2 = true
      ∧ getTaskStatusRun c B projectName title
          = getTaskStatusRun c (truncateSearch B) projectName title)
    ∧ (searchesCapped
          (updateTaskDescriptionRun c B now projectName title description).2 = true
      ∧ updateTaskDescriptionRun c B now projectName title description
          = updateTaskDescriptionRun c (truncateSearch B) now projectName title
              description)
    ∧ (searchesCapped
          (updateTaskWithChecklistRun c B projectName title checklistItems).2 = true
      ∧ updateTaskWithChecklistRun c B projectName title checklistItems
          = updateTaskWithChecklistRun c (truncateSearch B) projectName title
              checklistItems)
    ∧ (searchesCapped
          (completeChecklistItemRun c B projectName title checklistItemName).2 = true
      ∧ completeChecklistItemRun c B projectName title checklistItemName
          = completeChecklistItemRun c (truncateSearch B) projectName title
              checklistItemName)
    ∧ (searchesCapped (getNextUncheckedChecklistItemRun c B projectName title).2 = true
      ∧ getNextUncheckedChecklistItemRun c B projectName title
          = getNextUncheckedChecklistItemRun c (truncateSearch B) projectName title) :=
  ⟨setTaskStatusRun_firstOnly c B projectName title targetStatus,
   setTaskStatusRun_firstOnly c B projectName title STATUS_IN_PROGRESS,
   setTaskStatusRun_firstOnly c B projectName title STATUS_DONE,
   getTaskStatusRun_firstOnly c B projectName title,
   updateTaskDescriptionRun_firstOnly c B now projectName title description,
   updateTaskWithChecklistRun_firstOnly c B projectName title checklistItems,
   completeChecklistItemRun_firstOnly c B projectName title checklistItemName,
   getNextUncheckedRun_firstOnly c B projectName title⟩

/-- A falsy description contributes no texts. -/
theorem docTexts_falsy (d : Json) (hf : d.falsy = true) : docTexts d = [] := by
  rcases d with _ | b | n | s | xs | fs
  case null => rfl
  case bool => rfl
  case num => rfl
  case str => rfl
  case arr => rfl
  case obj =>
    simp only [Json.falsy, List.isEmpty_iff] at hf
    subst hf
    rfl

end JiraTM
